import Mathlib

/-!
Verification of the crop-coordinate normalizer and configuration exporter
of src/app.py (a single-page PDF crop-testing application).

The embedded operations are:
* `crop_image`   — the coordinate clamping performed in src/app.py lines 44-59;
* `acceptRect`   — the acceptance test of main, line 158: x2 > x1 and y2 > y1,
                   applied to the raw widget coordinates;
* `normalize`    — the pipeline main composes from the two (lines 157-159);
* `config_dict`  — the exported configuration document (lines 224-234);
* `export_file_name` — the suggested download filename (line 242);
* `extract_text_from_image` — the OCR result post-processing (lines 61-84).
-/

namespace App

/-- A crop rectangle: four integer pixel coordinates (x1, y1, x2, y2),
origin at the top-left corner of the image. -/
structure Rect where
  x1 : Int
  y1 : Int
  x2 : Int
  y2 : Int
deriving Repr, DecidableEq

/-- Clamping of a single coordinate to the interval from 0 to the bound,
as performed in crop_image, src/app.py lines 49-52:
x = max(0, min(x, width)). -/
def clampCoord (v bound : Int) : Int :=
  max 0 (min v bound)

/-- The function crop_image of src/app.py (lines 44-59): clamps each of the
four coordinates independently to the image bounds and returns the crop box
it passes to the external image.crop call. -/
def crop_image (r : Rect) (width height : Int) : Rect :=
  { x1 := clampCoord r.x1 width
    y1 := clampCoord r.y1 height
    x2 := clampCoord r.x2 width
    y2 := clampCoord r.y2 height }

/-- The acceptance test main applies before cropping (src/app.py line 158):
if x2 > x1 and y2 > y1. It inspects the raw widget coordinates, before any
clamping takes place. -/
def acceptRect (r : Rect) : Bool :=
  decide (r.x1 < r.x2) && decide (r.y1 < r.y2)

/-- The normalize pipeline as main composes it (src/app.py lines 157-159):
the raw coordinates first pass the acceptance test of line 158, and only an
accepted rectangle reaches crop_image, which clamps. The value none models
the Rejected outcome (the st.error branch at line 192). -/
def normalize (r : Rect) (width height : Int) : Option Rect :=
  if acceptRect r then some (crop_image r width height) else none

/-- A JSON value, restricted to the shapes the export path of src/app.py
emits: strings, integers, and objects whose key order is insertion order
(json.dumps preserves dict insertion order). -/
inductive JVal where
  | jstr : String → JVal
  | jint : Int → JVal
  | jobj : List (String × JVal) → JVal
deriving Repr

/-- Keys of a JSON object, in emission order. -/
def JVal.keys : JVal → List String
  | .jobj kvs => kvs.map Prod.fst
  | _ => []

/-- Field access in a JSON object, none on any other shape. -/
def JVal.lookup : JVal → String → Option JVal
  | .jobj kvs, k => List.lookup k kvs
  | _, _ => none

/-- The configuration document config_dict built in src/app.py lines 224-234
and serialized with json.dumps at lines 238 and 246. Keys appear in insertion
order. The field pagina stores page_num exactly as selected, which is
0-indexed; the UI displays page_num + 1. -/
def config_dict (distribuidora : String) (page_num : Int)
    (x1 y1 x2 y2 : Int) (dpi : Int) : JVal :=
  .jobj [("distribuidora", .jstr distribuidora),
         ("pagina", .jint page_num),
         ("coordenadas", .jobj [("x1", .jint x1), ("y1", .jint y1),
                                ("x2", .jint x2), ("y2", .jint y2)]),
         ("dpi", .jint dpi)]

/-- Reading an integer field of a JSON object, as a consumer of the exported
document would. -/
def getInt (j : JVal) (k : String) : Option Int :=
  match j.lookup k with
  | some (.jint n) => some n
  | _ => none

/-- Reading a string field of a JSON object. -/
def getStr (j : JVal) (k : String) : Option String :=
  match j.lookup k with
  | some (.jstr s) => some s
  | _ => none

/-- Deserializing an exported configuration document back into its fields:
label, page, rectangle and dpi. Fails with none when a field is missing or
has the wrong shape. -/
def parse_config (j : JVal) : Option (String × Int × Rect × Int) :=
  match getStr j "distribuidora", getInt j "pagina",
        j.lookup "coordenadas", getInt j "dpi" with
  | some d, some p, some c, some dpi =>
    match getInt c "x1", getInt c "y1", getInt c "x2", getInt c "y2" with
    | some x1, some y1, some x2, some y2 =>
      some (d, p, Rect.mk x1 y1 x2 y2, dpi)
    | _, _, _, _ => none
  | _, _, _, _ => none

/-- The suggested download filename of src/app.py line 242: the f-string
builds config_<distribuidora>.json, where the Python or-expression
substitutes the literal default "distribuidora" when the label is the empty
string (the only falsy string). -/
def export_file_name (distribuidora : String) : String :=
  "config_" ++ (if distribuidora = "" then "distribuidora" else distribuidora) ++ ".json"

/-- The function extract_text_from_image of src/app.py lines 61-84. The OCR
engine call is external, so its outcome is an input here: Except.error models
an exception raised inside the try block (caught at line 82), Except.ok none
models a falsy result or result[0] (the guard at line 74), and
Except.ok (some lines) a list of recognized lines, each a text paired with
its confidence score, kept abstract as a type parameter. The loop at lines
75-79 appends one text and one confidence per line. -/
def extract_text_from_image {C : Type}
    (ocrOut : Except String (Option (List (String × C)))) :
    List String × List C :=
  match ocrOut with
  | .error _ => ([], [])
  | .ok none => ([], [])
  | .ok (some lines) => (lines.map Prod.fst, lines.map Prod.snd)

/-! Helper lemmas about clamping. -/

theorem clampCoord_nonneg (v b : Int) : 0 ≤ clampCoord v b :=
  le_max_left 0 _

theorem clampCoord_le_bound (v b : Int) (hb : 0 ≤ b) : clampCoord v b ≤ b := by
  unfold clampCoord
  exact max_le hb (min_le_right v b)

theorem clampCoord_mono (v v' b : Int) (h : v ≤ v') :
    clampCoord v b ≤ clampCoord v' b := by
  unfold clampCoord
  exact max_le_max le_rfl (min_le_min h le_rfl)

theorem clampCoord_idem (v b : Int) :
    clampCoord (clampCoord v b) b = clampCoord v b := by
  unfold clampCoord
  simp only [max_def, min_def]
  split_ifs <;> omega

theorem crop_image_idem (r : Rect) (w h : Int) :
    crop_image (crop_image r w h) w h = crop_image r w h := by
  unfold crop_image
  simp [clampCoord_idem]

/-- C1, counterexample: the claim says the pipeline clamps first and then
rejects a rectangle that is degenerate after clamping, naming x1=850, x2=900
against width 800 as a rejected input. In the code the order is reversed:
this input passes the raw test 900 > 850 and is then clamped to the zero-area
box (800, 0, 800, 600) instead of being rejected. -/
theorem C1_counterexample :
    normalize (Rect.mk 850 0 900 600) 800 600 = some (Rect.mk 800 0 800 600) := by
  decide

/-- C1, amended: the pipeline rejects exactly when the raw coordinates, read
before clamping, satisfy x2 ≤ x1 or y2 ≤ y1; a rectangle that becomes
degenerate only after clamping is accepted and cropped with zero area. -/
theorem C1_rejects_iff_raw_degenerate (r : Rect) (w h : Int) :
    normalize r w h = none ↔ (r.x2 ≤ r.x1 ∨ r.y2 ≤ r.y1) := by
  unfold normalize acceptRect
  by_cases hx : r.x1 < r.x2 <;> by_cases hy : r.y1 < r.y2 <;>
    simp [hx, hy] <;> omega

/-- C2: for positive image dimensions, the pipeline either rejects or yields
a rectangle with 0 ≤ x1 ≤ x2 ≤ width and 0 ≤ y1 ≤ y2 ≤ height. -/
theorem C2_accepted_within_bounds (r : Rect) (w h : Int)
    (hw : 0 < w) (hh : 0 < h) (r' : Rect) (hn : normalize r w h = some r') :
    0 ≤ r'.x1 ∧ r'.x1 ≤ r'.x2 ∧ r'.x2 ≤ w ∧
    0 ≤ r'.y1 ∧ r'.y1 ≤ r'.y2 ∧ r'.y2 ≤ h := by
  unfold normalize at hn
  split at hn
  case isTrue hacc =>
    unfold acceptRect at hacc
    rw [Bool.and_eq_true, decide_eq_true_eq, decide_eq_true_eq] at hacc
    obtain ⟨hx, hy⟩ := hacc
    cases hn
    refine ⟨clampCoord_nonneg _ _, clampCoord_mono _ _ _ hx.le,
            clampCoord_le_bound _ _ hw.le, clampCoord_nonneg _ _,
            clampCoord_mono _ _ _ hy.le, clampCoord_le_bound _ _ hh.le⟩
  case isFalse => exact Option.noConfusion hn

/-- C2, witness: the theorem applied at the concrete accepted input
(10, 20, 300, 400) on an 800 x 600 image. -/
theorem C2_witness :
    0 ≤ (Rect.mk 10 20 300 400).x1 ∧
    (Rect.mk 10 20 300 400).x1 ≤ (Rect.mk 10 20 300 400).x2 ∧
    (Rect.mk 10 20 300 400).x2 ≤ 800 ∧
    0 ≤ (Rect.mk 10 20 300 400).y1 ∧
    (Rect.mk 10 20 300 400).y1 ≤ (Rect.mk 10 20 300 400).y2 ∧
    (Rect.mk 10 20 300 400).y2 ≤ 600 :=
  C2_accepted_within_bounds (Rect.mk 10 20 300 400) 800 600
    (by decide) (by decide) (Rect.mk 10 20 300 400) (by decide)

/-- C3, counterexample: at a concrete export (label CEMIG, first page,
preset coordinates, dpi 200) the document has keys exactly distribuidora,
pagina, coordenadas, dpi — there is no file-name field and no dimension
field — and pagina holds the 0-indexed page 0 while the UI displays page 1. -/
theorem C3_counterexample :
    (config_dict "CEMIG" 0 100 400 500 800 200).keys =
      ["distribuidora", "pagina", "coordenadas", "dpi"] ∧
    (config_dict "CEMIG" 0 100 400 500 800 200).lookup "pagina" =
      some (JVal.jint 0) := by
  exact ⟨rfl, rfl⟩

/-- C3, amended: every exported document is a JSON object whose keys, in
stable insertion order, are exactly distribuidora, pagina, coordenadas
(holding x1, y1, x2, y2 in that order) and dpi; the page is stored 0-indexed,
exactly as selected, and the document carries no file name and no original or
cropped dimensions. -/
theorem C3_document_shape (d : String) (p x1 y1 x2 y2 dpi : Int) :
    (config_dict d p x1 y1 x2 y2 dpi).keys =
      ["distribuidora", "pagina", "coordenadas", "dpi"] ∧
    (config_dict d p x1 y1 x2 y2 dpi).lookup "coordenadas" =
      some (JVal.jobj [("x1", JVal.jint x1), ("y1", JVal.jint y1),
                       ("x2", JVal.jint x2), ("y2", JVal.jint y2)]) ∧
    (config_dict d p x1 y1 x2 y2 dpi).lookup "pagina" = some (JVal.jint p) := by
  exact ⟨rfl, rfl, rfl⟩

/-- C4, counterexample: for the example config of the claim (rectangle
(10, 20, 300, 400), dpi 200, original dimensions 800 x 600) the emitted
document has no dimension field at all — its keys are only distribuidora,
pagina, coordenadas, dpi — so deserializing cannot recover the original
dimensions bit-identical. -/
theorem C4_counterexample :
    (config_dict "" 0 10 20 300 400 200).lookup "original" = none ∧
    (config_dict "" 0 10 20 300 400 200).lookup "original_size" = none ∧
    (config_dict "" 0 10 20 300 400 200).keys =
      ["distribuidora", "pagina", "coordenadas", "dpi"] := by
  exact ⟨rfl, rfl, rfl⟩

/-- C4, amended: for every field the export actually emits — label, page,
the four rectangle coordinates and dpi — serializing and then deserializing
recovers the value exactly: integers in, integers out, no precision loss. -/
theorem C4_roundtrip (d : String) (p x1 y1 x2 y2 dpi : Int) :
    parse_config (config_dict d p x1 y1 x2 y2 dpi) =
      some (d, p, Rect.mk x1 y1 x2 y2, dpi) := by
  exact rfl

/-- C5: every accepted rectangle has each coordinate clamped independently
to max(0, min(coord, bound)), and the spec example evaluates as stated:
normalize (-5, -5, 9999, 9999) on an 800 x 600 image gives (0, 0, 800, 600). -/
theorem C5_clamps_each_coordinate :
    (∀ (r : Rect) (w h : Int) (r' : Rect), normalize r w h = some r' →
      r'.x1 = max 0 (min r.x1 w) ∧ r'.y1 = max 0 (min r.y1 h) ∧
      r'.x2 = max 0 (min r.x2 w) ∧ r'.y2 = max 0 (min r.y2 h)) ∧
    normalize (Rect.mk (-5) (-5) 9999 9999) 800 600 =
      some (Rect.mk 0 0 800 600) := by
  constructor
  · intro r w h r' hn
    unfold normalize at hn
    split at hn
    · cases hn
      exact ⟨rfl, rfl, rfl, rfl⟩
    · exact Option.noConfusion hn
  · decide

/-- C5, witness: the clamping description applied at the spec's own example
input. -/
theorem C5_witness :
    (Rect.mk 0 0 800 600).x1 = max 0 (min (Rect.mk (-5) (-5) 9999 9999).x1 800) ∧
    (Rect.mk 0 0 800 600).y1 = max 0 (min (Rect.mk (-5) (-5) 9999 9999).y1 600) ∧
    (Rect.mk 0 0 800 600).x2 = max 0 (min (Rect.mk (-5) (-5) 9999 9999).x2 800) ∧
    (Rect.mk 0 0 800 600).y2 = max 0 (min (Rect.mk (-5) (-5) 9999 9999).y2 600) :=
  C5_clamps_each_coordinate.1 (Rect.mk (-5) (-5) 9999 9999) 800 600
    (Rect.mk 0 0 800 600) (by decide)

/-- C6, counterexample: normalize is not idempotent. The input
(100, 650, 700, 900) on an 800 x 600 image is accepted and clamped to
(100, 600, 700, 600), a zero-height box; feeding that accepted result back
into normalize rejects it instead of returning it unchanged. -/
theorem C6_counterexample :
    normalize (Rect.mk 100 650 700 900) 800 600 =
      some (Rect.mk 100 600 700 600) ∧
    normalize (Rect.mk 100 600 700 600) 800 600 = none := by
  decide

/-- C6, amended: idempotence holds for every accepted result that is itself
non-degenerate: if normalize r w h accepts with result r' and r' still has
x1 < x2 and y1 < y2, then normalize r' w h returns r' unchanged. -/
theorem C6_idempotent_on_nondegenerate (r : Rect) (w h : Int) (r' : Rect)
    (hn : normalize r w h = some r') (hx : r'.x1 < r'.x2) (hy : r'.y1 < r'.y2) :
    normalize r' w h = some r' := by
  have hr' : r' = crop_image r w h := by
    unfold normalize at hn
    split at hn
    · exact (Option.some.injEq _ _ ▸ hn).symm
    · exact Option.noConfusion hn
  have hacc : acceptRect r' = true := by
    unfold acceptRect
    simp [hx, hy]
  unfold normalize
  rw [hacc]
  simp only [if_true]
  rw [hr', crop_image_idem]

/-- C6, witness: the amended idempotence at the concrete accepted,
non-degenerate result of normalizing (10, 20, 300, 400) on 800 x 600. -/
theorem C6_witness :
    normalize (Rect.mk 10 20 300 400) 800 600 =
      some (Rect.mk 10 20 300 400) :=
  C6_idempotent_on_nondegenerate (Rect.mk 10 20 300 400) 800 600
    (Rect.mk 10 20 300 400) (by decide) (by decide) (by decide)

/-- C7: a swapped rectangle (x1 > x2) is always rejected, and both spec
examples are rejected: (750, 0, 700, 600) on 800 x 600, and the zero-area
(10, 10, 10, 10) on 100 x 100, confirming rejection is based on coordinate
order, not magnitude. -/
theorem C7_swapped_rejected :
    (∀ (r : Rect) (w h : Int), r.x2 < r.x1 → normalize r w h = none) ∧
    normalize (Rect.mk 750 0 700 600) 800 600 = none ∧
    normalize (Rect.mk 10 10 10 10) 100 100 = none := by
  refine ⟨?_, by decide, by decide⟩
  intro r w h hswap
  unfold normalize acceptRect
  have hx : ¬ (r.x1 < r.x2) := by omega
  simp [hx]

/-- C7, witness: the general swapped-rectangle rejection at a concrete
swapped input. -/
theorem C7_witness : normalize (Rect.mk 9 0 3 5) 100 100 = none :=
  C7_swapped_rejected.1 (Rect.mk 9 0 3 5) 100 100 (by decide)

/-- C8, counterexample: for the label CEMIG the suggested filename is
config_CEMIG.json — it contains no digit at all, hence no page number, so it
does not follow the pattern label_page.json. -/
theorem C8_counterexample :
    export_file_name "CEMIG" = "config_CEMIG.json" ∧
    ((export_file_name "CEMIG").data.all (fun c => !c.isDigit)) = true := by
  exact ⟨rfl, rfl⟩

/-- C8, amended: the suggested filename is config_ followed by the label
and .json, with the literal default distribuidora substituted when the label
is empty; the page number never appears in the filename. -/
theorem C8_filename (d : String) :
    (d = "" → export_file_name d = "config_distribuidora.json") ∧
    (d ≠ "" → export_file_name d = "config_" ++ d ++ ".json") := by
  constructor
  · intro hd
    subst hd
    rfl
  · intro hd
    unfold export_file_name
    simp [hd]

/-- C8, witness: the filename behavior at the empty label and at the
label ENEL. -/
theorem C8_witness :
    export_file_name "" = "config_distribuidora.json" ∧
    export_file_name "ENEL" = "config_ENEL.json" :=
  ⟨(C8_filename "").1 rfl, (C8_filename "ENEL").2 (by decide)⟩

/-- C9: extract_text_from_image always returns one text entry per confidence
score (equal lengths), and on an internal failure it returns the pair of
empty lists rather than raising. -/
theorem C9_extract_shape {C : Type}
    (ocrOut : Except String (Option (List (String × C)))) :
    (extract_text_from_image ocrOut).1.length =
      (extract_text_from_image ocrOut).2.length ∧
    (∀ e, ocrOut = Except.error e → extract_text_from_image ocrOut = ([], [])) := by
  constructor
  · cases ocrOut with
    | error e => rfl
    | ok o =>
      cases o with
      | none => rfl
      | some lines => simp [extract_text_from_image]
  · intro e he
    subst he
    rfl

/-- C9, witness: the shape theorem at a concrete failing OCR call, with
integer-scaled confidences. -/
theorem C9_witness :
    (extract_text_from_image
      (Except.error "ocr failed" : Except String (Option (List (String × Int))))).1.length =
    (extract_text_from_image
      (Except.error "ocr failed" : Except String (Option (List (String × Int))))).2.length ∧
    extract_text_from_image
      (Except.error "ocr failed" : Except String (Option (List (String × Int)))) = ([], []) :=
  ⟨(C9_extract_shape (Except.error "ocr failed")).1,
   (C9_extract_shape (Except.error "ocr failed")).2 "ocr failed" rfl⟩

/-- C10: the export path performs no clamping and no degeneracy check: for
any coordinates within the widget bounds of a w x h image, including
degenerate ones with x2 ≤ x1 or y2 ≤ y1, the document is built and its
coordenadas object carries the raw input coordinates unchanged. -/
theorem C10_export_raw (d : String) (p x1 y1 x2 y2 dpi w h : Int)
    (_hb : 0 ≤ x1 ∧ x1 ≤ w ∧ 0 ≤ y1 ∧ y1 ≤ h ∧
           0 ≤ x2 ∧ x2 ≤ w ∧ 0 ≤ y2 ∧ y2 ≤ h) :
    (config_dict d p x1 y1 x2 y2 dpi).lookup "coordenadas" =
      some (JVal.jobj [("x1", JVal.jint x1), ("y1", JVal.jint y1),
                       ("x2", JVal.jint x2), ("y2", JVal.jint y2)]) ∧
    parse_config (config_dict d p x1 y1 x2 y2 dpi) =
      some (d, p, Rect.mk x1 y1 x2 y2, dpi) := by
  exact ⟨rfl, rfl⟩

/-- C10, witness: the export at the degenerate in-bounds rectangle
(300, 400, 100, 50) on an 800 x 600 image: the raw coordinates appear
unchanged in the document. -/
theorem C10_witness :
    (config_dict "X" 2 300 400 100 50 150).lookup "coordenadas" =
      some (JVal.jobj [("x1", JVal.jint 300), ("y1", JVal.jint 400),
                       ("x2", JVal.jint 100), ("y2", JVal.jint 50)]) ∧
    parse_config (config_dict "X" 2 300 400 100 50 150) =
      some ("X", 2, Rect.mk 300 400 100 50, 150) :=
  C10_export_raw "X" 2 300 400 100 50 150 800 600 (by norm_num)

end App
